import Mathlib

/-!
Verification of the AgentFabric AutoAssist core against its design
specification.  The definitions below are a shallow embedding of the
Python modules `app/agent.py`, `app/llm_adapter.py`, `app/observability.py`
and the `/chat` route of `app/main.py`.  Machine floats are modelled as
rationals; exceptions are modelled as explicit error values; the network
backend behind the HTTP client is modelled as a function from the attempt
index to that attempt outcome.
-/

namespace AutoAssist

/-! ## agent.py -/

/-- The constant system prompt block from `app/agent.py` (`SYSTEM_PROMPT`). -/
def SYSTEM_PROMPT : String :=
  "You are AutoAssist, an automotive support agent for vehicle owners and service technicians.\n\nYour responsibilities:\n1. Provide contextual vehicle troubleshooting guidance\n2. Explain vehicle features and maintenance procedures\n3. Interpret warning indicators and error codes\n4. Offer safe, practical solutions\n\nGUARDRAILS:\n- ONLY provide automotive-related assistance\n- NEVER provide financial or medical advice\n- NEVER speculate about unknown vehicle specifications\n- ALWAYS prioritize safety in troubleshooting guidance\n- ALWAYS recommend professional service for complex issues\n\nResponse Style:\n- Be concise and clear\n- Use numbered steps for procedures\n- Recommend professional service when appropriate\n- Maintain a professional, helpful tone\n"

/-- Embedding of `AutoAssistAgent.construct_prompt`: the f-string
`SYSTEM_PROMPT` + a user-query section + a closing instruction line. -/
def construct_prompt (user_query : String) : String :=
  SYSTEM_PROMPT ++ "\n\nUser Query: " ++ user_query ++
    "\n\nProvide a helpful, safety-first response:"

/-- The structured result dict produced by `AutoAssistAgent.process_query`.
The success dict has no `error` key and the error dict has no `response`
key; absent keys are modelled with `none`. -/
structure QueryResult where
  status : String
  query : String
  response : Option String
  error : Option String
  model : String
deriving DecidableEq, Repr

/-- Outcome of one call to the adapter `generate` coroutine as seen by the
orchestrator: either it returns a string or it raises an exception whose
`str` is `msg`. -/
inductive AdapterOutcome where
  | returns (text : String)
  | raises (msg : String)
deriving DecidableEq, Repr

/-- The error dict built by the `except` block of `process_query`:
status `error`, the original query, `str(e)`, and the model name. -/
def errorResult (q msg model_name : String) : QueryResult :=
  { status := "error", query := q, response := none, error := some msg,
    model := model_name }

/-- Embedding of `AutoAssistAgent.process_query`, instrumented with the
number of adapter `generate` invocations (second component).  Mirrors the
source: empty query and over-length query raise `ValueError` (caught by the
`except` block), an empty adapter response raises `RuntimeError`, any
exception raised by the adapter is caught, and every caught exception
becomes an error dict carrying `str(e)`. -/
def process_query_instr (model_name : String) (adapter : String → AdapterOutcome)
    (user_query : String) : QueryResult × Nat :=
  if user_query = "" then
    (errorResult user_query "Invalid query: must be non-empty string" model_name, 0)
  else if user_query.length > 1000 then
    (errorResult user_query "Query too long: maximum 1000 characters" model_name, 0)
  else
    match adapter (construct_prompt user_query) with
    | .raises msg => (errorResult user_query msg model_name, 1)
    | .returns response_text =>
        if response_text = "" then
          (errorResult user_query "Empty response from LLM" model_name, 1)
        else
          ({ status := "success", query := user_query,
             response := some response_text, error := none,
             model := model_name }, 1)

/-- `AutoAssistAgent.process_query` (the returned dict). -/
def process_query (model_name : String) (adapter : String → AdapterOutcome)
    (user_query : String) : QueryResult :=
  (process_query_instr model_name adapter user_query).1

theorem string_eq_empty_of_length_eq_zero {s : String} (h : s.length = 0) :
    s = "" := by
  cases s with
  | mk data =>
    cases data with
    | nil => rfl
    | cons c cs => simp [String.length] at h

theorem process_query_instr_cases (model_name : String)
    (adapter : String → AdapterOutcome) (q : String) :
    ((process_query_instr model_name adapter q).1.status = "success" ∧
      (process_query_instr model_name adapter q).1.query = q ∧
      (process_query_instr model_name adapter q).1.model = model_name ∧
      (process_query_instr model_name adapter q).1.error = none) ∨
    ((process_query_instr model_name adapter q).1.status = "error" ∧
      (process_query_instr model_name adapter q).1.query = q ∧
      (process_query_instr model_name adapter q).1.model = model_name ∧
      ∃ msg, (process_query_instr model_name adapter q).1.error = some msg) := by
  unfold process_query_instr
  split
  · exact Or.inr ⟨rfl, rfl, rfl, _, rfl⟩
  · split
    · exact Or.inr ⟨rfl, rfl, rfl, _, rfl⟩
    · split
      · exact Or.inr ⟨rfl, rfl, rfl, _, rfl⟩
      · split
        · exact Or.inr ⟨rfl, rfl, rfl, _, rfl⟩
        · exact Or.inl ⟨rfl, rfl, rfl, rfl⟩

/-- C1: `process_query` never raises: for every input string and every
adapter behaviour (returning any string or raising any exception), it
returns a structured result dict; every failure becomes a result with
status `error` carrying the query, an error message, and the model name. -/
theorem process_query_never_raises (model_name : String)
    (adapter : String → AdapterOutcome) (q : String) :
    ((process_query model_name adapter q).status = "success" ∧
      (process_query model_name adapter q).query = q ∧
      (process_query model_name adapter q).model = model_name ∧
      (process_query model_name adapter q).error = none) ∨
    ((process_query model_name adapter q).status = "error" ∧
      (process_query model_name adapter q).query = q ∧
      (process_query model_name adapter q).model = model_name ∧
      ∃ msg, (process_query model_name adapter q).error = some msg) :=
  process_query_instr_cases model_name adapter q

/-- C2: for every query of length 1..1000, if the adapter returns the
non-empty string `ok` for the constructed prompt, `process_query` returns
the success dict echoing the query, the response `ok`, and the configured
model name. -/
theorem process_query_success_on_ok (model_name : String)
    (adapter : String → AdapterOutcome) (q : String)
    (hgen : adapter (construct_prompt q) = .returns "ok")
    (hlow : 1 ≤ q.length) (hhigh : q.length ≤ 1000) :
    process_query model_name adapter q =
      { status := "success", query := q, response := some "ok",
        error := none, model := model_name } := by
  have hq : q ≠ "" := by
    intro h
    rw [h] at hlow
    simp [String.length] at hlow
  have hlen : ¬ q.length > 1000 := by omega
  unfold process_query process_query_instr
  rw [if_neg hq, if_neg hlen, hgen]
  rfl

/-- Witness for C2 at the query `hi` with a stub adapter. -/
theorem process_query_success_on_ok_witness :
    process_query "mistral" (fun _ => .returns "ok") "hi" =
      { status := "success", query := "hi", response := some "ok",
        error := none, model := "mistral" } :=
  process_query_success_on_ok "mistral" (fun _ => .returns "ok") "hi" rfl
    (by decide) (by decide)

/-- C3: an empty or over-length query yields an error-status result and
the adapter `generate` is never invoked (zero adapter calls). -/
theorem process_query_rejects_without_adapter_call (model_name : String)
    (adapter : String → AdapterOutcome) (q : String)
    (h : q.length = 0 ∨ q.length > 1000) :
    (process_query_instr model_name adapter q).1.status = "error" ∧
    (process_query_instr model_name adapter q).2 = 0 := by
  unfold process_query_instr
  cases h with
  | inl h0 =>
    have hq : q = "" := string_eq_empty_of_length_eq_zero h0
    rw [if_pos hq]
    exact ⟨rfl, rfl⟩
  | inr h1 =>
    have hq : q ≠ "" := by
      intro h
      rw [h] at h1
      simp [String.length] at h1
    rw [if_neg hq, if_pos h1]
    exact ⟨rfl, rfl⟩

/-- Witness for C3 at the empty query. -/
theorem process_query_rejects_without_adapter_call_witness :
    ("".length = 0 ∨ "".length > 1000) ∧
    ((process_query_instr "mistral" (fun _ => .returns "ok") "").1.status = "error" ∧
      (process_query_instr "mistral" (fun _ => .returns "ok") "").2 = 0) :=
  ⟨Or.inl rfl,
    process_query_rejects_without_adapter_call "mistral"
      (fun _ => .returns "ok") "" (Or.inl rfl)⟩

/-! ## llm_adapter.py -/

/-- JSON values, for the parsed response body `response.json()`. -/
inductive JVal where
  | null
  | bool (b : Bool)
  | num (q : ℚ)
  | str (s : String)
  | arr (elems : List JVal)
  | obj (fields : List (String × JVal))

/-- The Python exceptions that the response-extraction expression
`data.get(...)[0].get(...).strip()` can raise. -/
inductive PyExc where
  | indexError
  | keyError
  | typeError
  | attributeError
deriving DecidableEq, Repr

/-- `str(e)` of the modelled exceptions (used when such an exception
becomes the `last_error` of the retry loop). -/
def PyExc.message : PyExc → String
  | .indexError => "list index out of range"
  | .keyError => "0"
  | .typeError => "object is not subscriptable"
  | .attributeError => "object has no attribute"

/-- Python `v.get(key, dflt)`: dict lookup with a default; any non-dict
receiver raises `AttributeError`. -/
def pyGet (v : JVal) (key : String) (dflt : JVal) : Except PyExc JVal :=
  match v with
  | .obj fields =>
      match fields.lookup key with
      | some w => .ok w
      | none => .ok dflt
  | _ => .error .attributeError

/-- Python `v[0]`: list indexing raises `IndexError` when empty, string
indexing yields the first character, dict indexing raises `KeyError`
(string keys only), anything else is not subscriptable. -/
def pyIndex0 (v : JVal) : Except PyExc JVal :=
  match v with
  | .arr [] => .error .indexError
  | .arr (x :: _) => .ok x
  | .str s =>
      match s.data with
      | [] => .error .indexError
      | c :: _ => .ok (.str (String.mk [c]))
  | .obj _ => .error .keyError
  | _ => .error .typeError

/-- Python `s.strip()`: drop leading and trailing whitespace characters. -/
def strip (s : String) : String :=
  String.mk
    (((s.data.dropWhile Char.isWhitespace).reverse.dropWhile
        Char.isWhitespace).reverse)

/-- Python `v.strip()`: defined on strings only. -/
def pyStrip (v : JVal) : Except PyExc String :=
  match v with
  | .str s => .ok (strip s)
  | _ => .error .attributeError

/-- Embedding of the extraction expression of both adapters:
`data.get("choices", [{}])[0].get("text", "").strip()`. -/
def extract_text (data : JVal) : Except PyExc String := do
  let choices ← pyGet data "choices" (.arr [.obj []])
  let first ← pyIndex0 choices
  let text ← pyGet first "text" (.str "")
  pyStrip text

/-- One attempt of the retry loop as seen at the HTTP boundary: either the
POST succeeded with an OK status and a parsed JSON body, or it failed
(HTTP status error, connection error, timeout, or JSON decode error) with
an exception whose `str` is `msg`. -/
inductive AttemptOutcome where
  | body (data : JVal)
  | failure (msg : String)

/-- What one iteration of the `try` block produces: the extracted text on
success, or the `str` of the raised exception (either the backend failure
or an extraction exception, both caught by the `except` clauses). -/
def attemptResult : AttemptOutcome → Except String String
  | .failure msg => .error msg
  | .body data =>
      match extract_text data with
      | .ok text => .ok text
      | .error e => .error e.message

/-- Python `str` applied to `last_error` (which is `None` initially). -/
def strOfOption : Option String → String
  | none => "None"
  | some s => s

/-- The message of the terminal `RuntimeError`, e.g.
`Local LLM generation failed after 3 attempts: ...`. -/
def exhaustedMessage (label : String) (max_retries : Nat)
    (last_error : Option String) : String :=
  label ++ " generation failed after " ++ toString max_retries ++
    " attempts: " ++ strOfOption last_error

/-- Trace of one `generate` call: its outcome (`.ok` returned text or
`.error` the terminal `RuntimeError` message), the number of attempts
actually made, and the backoff sleeps performed, in seconds and in order. -/
structure GenTrace where
  result : Except String String
  attempts : Nat
  sleeps : List ℚ

/-- Embedding of the retry loop shared by `LocalLLMAdapter.generate` and
`APILLMAdapter.generate`: `for attempt in range(max_retries)` with fuel
`max_retries - attempt`; a successful attempt returns the extracted text
at once; a failed attempt records `last_error` and, unless it was the
final attempt, sleeps `retry_delay * (attempt + 1)` seconds and retries;
after the final failed attempt the loop raises `RuntimeError` carrying
`str(last_error)`. -/
def generate_loop (label : String) (backend : Nat → AttemptOutcome)
    (retry_delay : ℚ) (max_retries : Nat) :
    Nat → Nat → Option String → GenTrace
  | 0, _attempt, last_error =>
      { result := .error (exhaustedMessage label max_retries last_error),
        attempts := 0, sleeps := [] }
  | fuel + 1, attempt, _last_error =>
      match attemptResult (backend attempt) with
      | .ok text => { result := .ok text, attempts := 1, sleeps := [] }
      | .error e =>
          match fuel with
          | 0 =>
              { result := .error (exhaustedMessage label max_retries (some e)),
                attempts := 1, sleeps := [] }
          | frem + 1 =>
              let rest := generate_loop label backend retry_delay max_retries
                (frem + 1) (attempt + 1) (some e)
              { result := rest.result, attempts := rest.attempts + 1,
                sleeps := retry_delay * ((attempt : ℚ) + 1) :: rest.sleeps }

/-- `LocalLLMAdapter.generate`: `max_retries = 3`, `retry_delay = 1.0`. -/
def LocalLLMAdapter.generate (backend : Nat → AttemptOutcome) : GenTrace :=
  generate_loop "Local LLM" backend 1 3 3 0 none

/-- `APILLMAdapter.generate`: `max_retries = 3`, `retry_delay = 1.0`. -/
def APILLMAdapter.generate (backend : Nat → AttemptOutcome) : GenTrace :=
  generate_loop "API LLM" backend 1 3 3 0 none

theorem generate_loop_attempts_le (label : String)
    (backend : Nat → AttemptOutcome) (retry_delay : ℚ) (max_retries : Nat)
    (fuel attempt : Nat) (last_error : Option String) :
    (generate_loop label backend retry_delay max_retries fuel attempt
      last_error).attempts ≤ fuel := by
  induction fuel generalizing attempt last_error with
  | zero => exact Nat.le_refl 0
  | succ n ih =>
    rw [generate_loop]
    cases h : attemptResult (backend attempt) with
    | ok text => exact Nat.succ_le_succ (Nat.zero_le n)
    | error e =>
      cases n with
      | zero => exact Nat.le_refl 1
      | succ m => exact Nat.succ_le_succ (ih (attempt + 1) (some e))

/-- Characterization of the 3-attempt loop for an arbitrary label. -/
theorem generate_loop_spec (label : String) (backend : Nat → AttemptOutcome) :
    ((generate_loop label backend 1 3 3 0 none).attempts ≤ 3) ∧
    (∀ s, attemptResult (backend 0) = .ok s →
      generate_loop label backend 1 3 3 0 none =
        { result := .ok s, attempts := 1, sleeps := [] }) ∧
    (∀ e0 s, attemptResult (backend 0) = .error e0 →
      attemptResult (backend 1) = .ok s →
      generate_loop label backend 1 3 3 0 none =
        { result := .ok s, attempts := 2, sleeps := [1] }) ∧
    (∀ e0 e1 s, attemptResult (backend 0) = .error e0 →
      attemptResult (backend 1) = .error e1 →
      attemptResult (backend 2) = .ok s →
      generate_loop label backend 1 3 3 0 none =
        { result := .ok s, attempts := 3, sleeps := [1, 2] }) ∧
    (∀ e0 e1 e2, attemptResult (backend 0) = .error e0 →
      attemptResult (backend 1) = .error e1 →
      attemptResult (backend 2) = .error e2 →
      generate_loop label backend 1 3 3 0 none =
        { result := .error (exhaustedMessage label 3 (some e2)),
          attempts := 3, sleeps := [1, 2] }) := by
  refine ⟨generate_loop_attempts_le label backend 1 3 3 0 none, ?_, ?_, ?_, ?_⟩
  · intro s h0
    rw [generate_loop, h0]
  · intro e0 s h0 h1
    rw [generate_loop, h0]
    dsimp only
    simp only [Nat.reduceAdd]
    rw [generate_loop, h1]
    dsimp only
    norm_num [GenTrace.mk.injEq]
  · intro e0 e1 s h0 h1 h2
    rw [generate_loop, h0]
    dsimp only
    simp only [Nat.reduceAdd]
    rw [generate_loop, h1]
    dsimp only
    simp only [Nat.reduceAdd]
    rw [generate_loop, h2]
    dsimp only
    norm_num [GenTrace.mk.injEq]
  · intro e0 e1 e2 h0 h1 h2
    rw [generate_loop, h0]
    dsimp only
    simp only [Nat.reduceAdd]
    rw [generate_loop, h1]
    dsimp only
    simp only [Nat.reduceAdd]
    rw [generate_loop, h2]
    dsimp only
    norm_num [GenTrace.mk.injEq]

/-- C4: for every backend behaviour, both adapter `generate` loops make at
most 3 attempts; attempt 1 fires immediately; a failed attempt is followed
by a sleep of `attemptIndex * 1` second (1s before attempt 2, 2s before
attempt 3) and a retry unless it was the final attempt; a successful
attempt returns at once with no further attempts; and when all 3 attempts
fail, `generate` fails after exactly 3 attempts with a `RuntimeError`
embedding the last underlying cause. -/
theorem adapters_retry_schedule (backend : Nat → AttemptOutcome) :
    ((LocalLLMAdapter.generate backend).attempts ≤ 3 ∧
      (APILLMAdapter.generate backend).attempts ≤ 3) ∧
    (∀ s, attemptResult (backend 0) = .ok s →
      LocalLLMAdapter.generate backend =
        { result := .ok s, attempts := 1, sleeps := [] } ∧
      APILLMAdapter.generate backend =
        { result := .ok s, attempts := 1, sleeps := [] }) ∧
    (∀ e0 s, attemptResult (backend 0) = .error e0 →
      attemptResult (backend 1) = .ok s →
      LocalLLMAdapter.generate backend =
        { result := .ok s, attempts := 2, sleeps := [1] } ∧
      APILLMAdapter.generate backend =
        { result := .ok s, attempts := 2, sleeps := [1] }) ∧
    (∀ e0 e1 s, attemptResult (backend 0) = .error e0 →
      attemptResult (backend 1) = .error e1 →
      attemptResult (backend 2) = .ok s →
      LocalLLMAdapter.generate backend =
        { result := .ok s, attempts := 3, sleeps := [1, 2] } ∧
      APILLMAdapter.generate backend =
        { result := .ok s, attempts := 3, sleeps := [1, 2] }) ∧
    (∀ e0 e1 e2, attemptResult (backend 0) = .error e0 →
      attemptResult (backend 1) = .error e1 →
      attemptResult (backend 2) = .error e2 →
      LocalLLMAdapter.generate backend =
        { result := .error ("Local LLM generation failed after 3 attempts: " ++ e2),
          attempts := 3, sleeps := [1, 2] } ∧
      APILLMAdapter.generate backend =
        { result := .error ("API LLM generation failed after 3 attempts: " ++ e2),
          attempts := 3, sleeps := [1, 2] }) := by
  have hl := generate_loop_spec "Local LLM" backend
  have ha := generate_loop_spec "API LLM" backend
  refine ⟨⟨hl.1, ha.1⟩, ?_, ?_, ?_, ?_⟩
  · exact fun s h0 => ⟨hl.2.1 s h0, ha.2.1 s h0⟩
  · exact fun e0 s h0 h1 => ⟨hl.2.2.1 e0 s h0 h1, ha.2.2.1 e0 s h0 h1⟩
  · exact fun e0 e1 s h0 h1 h2 =>
      ⟨hl.2.2.2.1 e0 e1 s h0 h1 h2, ha.2.2.2.1 e0 e1 s h0 h1 h2⟩
  · exact fun e0 e1 e2 h0 h1 h2 =>
      ⟨hl.2.2.2.2 e0 e1 e2 h0 h1 h2, ha.2.2.2.2 e0 e1 e2 h0 h1 h2⟩

/-- Witness for C4: a backend that always fails with cause `boom`
exhausts both adapters after exactly 3 attempts with sleeps of 1s and 2s,
and the terminal error embeds the last cause. -/
theorem adapters_retry_schedule_witness :
    LocalLLMAdapter.generate (fun _ => .failure "boom") =
      { result := .error ("Local LLM generation failed after 3 attempts: " ++ "boom"),
        attempts := 3, sleeps := [1, 2] } ∧
    APILLMAdapter.generate (fun _ => .failure "boom") =
      { result := .error ("API LLM generation failed after 3 attempts: " ++ "boom"),
        attempts := 3, sleeps := [1, 2] } :=
  (adapters_retry_schedule (fun _ => .failure "boom")).2.2.2.2
    "boom" "boom" "boom" rfl rfl rfl

/-- C5: an empty adapter return is an orchestrator-level failure while
remaining an adapter-level success: when `generate` returns `""` (a valid
non-exception return, e.g. from a body whose `choices[0].text` is empty),
`process_query` produces an error-status result, not a success. -/
theorem empty_response_orchestrator_failure (model_name : String)
    (adapter : String → AdapterOutcome) (q : String)
    (hgen : adapter (construct_prompt q) = .returns "")
    (hlow : 1 ≤ q.length) (hhigh : q.length ≤ 1000) :
    ((process_query model_name adapter q).status = "error" ∧
      (process_query model_name adapter q).error = some "Empty response from LLM") ∧
    (LocalLLMAdapter.generate
        (fun _ => .body (.obj [("choices", .arr [.obj [("text", .str "")]])]))).result =
      .ok "" := by
  have hq : q ≠ "" := by
    intro h
    rw [h] at hlow
    simp [String.length] at hlow
  have hlen : ¬ q.length > 1000 := by omega
  refine ⟨?_, ?_⟩
  · unfold process_query process_query_instr
    rw [if_neg hq, if_neg hlen, hgen]
    exact ⟨rfl, rfl⟩
  · have h := (generate_loop_spec "Local LLM"
      (fun _ => .body (.obj [("choices", .arr [.obj [("text", .str "")]])]))).2.1
      "" rfl
    unfold LocalLLMAdapter.generate
    rw [h]

/-- Witness for C5 at the query `hi`. -/
theorem empty_response_orchestrator_failure_witness :
    ((process_query "mistral" (fun _ => .returns "") "hi").status = "error" ∧
      (process_query "mistral" (fun _ => .returns "") "hi").error =
        some "Empty response from LLM") ∧
    (LocalLLMAdapter.generate
        (fun _ => .body (.obj [("choices", .arr [.obj [("text", .str "")]])]))).result =
      .ok "" :=
  empty_response_orchestrator_failure "mistral" (fun _ => .returns "") "hi" rfl
    (by decide) (by decide)

/-- C7 counterexample: the claim says an empty `choices` list defaults to
a successful empty-string return, but on the body with `choices = []` the
extraction raises `IndexError` (the list-of-one-empty-dict default only
guards a missing key), so the attempt fails and a backend always returning that
body exhausts the retries instead of returning the empty string. -/
theorem extract_text_empty_choices_counterexample :
    extract_text (.obj [("choices", .arr [])]) = .error .indexError ∧
    (LocalLLMAdapter.generate (fun _ => .body (.obj [("choices", .arr [])]))).result =
      .error ("Local LLM generation failed after 3 attempts: " ++
        "list index out of range") := by
  refine ⟨rfl, ?_⟩
  have h := (generate_loop_spec "Local LLM"
      (fun _ => .body (.obj [("choices", .arr [])]))).2.2.2.2
    "list index out of range" "list index out of range" "list index out of range"
    rfl rfl rfl
  unfold LocalLLMAdapter.generate
  rw [h]
  rfl

/-- C7 amended: the extraction takes element 0 of the list under the
`choices` key and trims its `text` field; it defaults to the empty string
(a successful return) when the `choices` key is missing or when element 0
has no `text` field; an empty `choices` list instead raises `IndexError`,
which is a failed attempt, not an empty-string success. -/
theorem extract_text_characterization (fields f2 : List (String × JVal))
    (rest : List JVal) (s : String)
    (hnone : fields.lookup "choices" = none)
    (htext : f2.lookup "text" = none) :
    (extract_text (.obj fields) = .ok "") ∧
    (extract_text (.obj [("choices",
        .arr (.obj (("text", .str s) :: f2) :: rest))]) = .ok (strip s)) ∧
    (extract_text (.obj [("choices", .arr (.obj f2 :: rest))]) = .ok "") ∧
    (extract_text (.obj [("choices", .arr [])]) = .error .indexError) := by
  refine ⟨?_, rfl, ?_, rfl⟩
  · unfold extract_text pyGet
    dsimp only
    rw [hnone]
    rfl
  · have step : extract_text (.obj [("choices", .arr (.obj f2 :: rest))]) =
        Except.bind (pyGet (.obj f2) "text" (.str "")) pyStrip := rfl
    rw [step]
    unfold pyGet
    dsimp only
    rw [htext]
    rfl

/-- Witness for C7 amended, at concrete field lists. -/
theorem extract_text_characterization_witness :
    (extract_text (.obj []) = .ok "") ∧
    (extract_text (.obj [("choices",
        .arr [.obj [("text", .str "  hi  ")]])]) = .ok (strip "  hi  ")) ∧
    (extract_text (.obj [("choices", .arr [.obj []])]) = .ok "") ∧
    (extract_text (.obj [("choices", .arr [])]) = .error .indexError) :=
  extract_text_characterization [] [] [] "  hi  " rfl rfl

/-! ## observability.py -/

/-- A Python number: the metrics code mixes ints and floats (the
success-rate falls back to the int `0` when no request was recorded). -/
inductive PyNumber where
  | int (n : ℤ)
  | float (q : ℚ)
deriving DecidableEq, Repr

/-- Numeric value of a Python number. -/
def PyNumber.val : PyNumber → ℚ
  | .int n => (n : ℚ)
  | .float q => q

/-- Round to the nearest integer, ties to even (Python `round`). -/
def roundHalfEven (q : ℚ) : ℤ :=
  if q - ⌊q⌋ < 1/2 then ⌊q⌋
  else if (1 : ℚ)/2 < q - ⌊q⌋ then ⌊q⌋ + 1
  else if ⌊q⌋ % 2 = 0 then ⌊q⌋ else ⌊q⌋ + 1

/-- Python `round(x, 2)` on a float, modelled over the rationals. -/
def pyRound2 (x : ℚ) : ℚ := (roundHalfEven (x * 100) : ℚ) / 100

/-- Python `round(x, 2)`: an int input is returned unchanged. -/
def pyRound2Num : PyNumber → PyNumber
  | .int n => .int n
  | .float q => .float (pyRound2 q)

/-- The mutable state of `MetricsCollector` in `app/observability.py`. -/
structure MetricsCollector where
  request_count : Nat
  error_count : Nat
  total_latency : ℚ
  request_latencies : List ℚ
deriving DecidableEq, Repr

/-- `MetricsCollector.__init__`: all metrics start at zero. -/
def MetricsCollector.init : MetricsCollector :=
  { request_count := 0, error_count := 0, total_latency := 0,
    request_latencies := [] }

/-- `MetricsCollector.record_request`: increment the request counter, add
the latency to the cumulative total, append the individual latency, and
increment the error counter if the request failed. -/
def MetricsCollector.record_request (m : MetricsCollector) (latency_ms : ℚ)
    (error : Bool) : MetricsCollector :=
  { request_count := m.request_count + 1,
    total_latency := m.total_latency + latency_ms,
    request_latencies := m.request_latencies ++ [latency_ms],
    error_count := if error then m.error_count + 1 else m.error_count }

/-- The snapshot dict returned by `MetricsCollector.get_metrics`. -/
structure MetricsSnapshot where
  total_requests : Nat
  total_errors : Nat
  avg_latency_ms : ℚ
  success_rate : PyNumber
deriving DecidableEq, Repr

/-- `MetricsCollector.get_metrics`: average latency over
`max(request_count, 1)`; success rate as a percentage when any request was
recorded, the int `0` otherwise; both rounded to 2 decimal places. -/
def MetricsCollector.get_metrics (m : MetricsCollector) : MetricsSnapshot :=
  let avg_latency : ℚ := m.total_latency / ((max m.request_count 1 : ℕ) : ℚ)
  let success_rate : PyNumber :=
    if 0 < m.request_count then
      .float ((((m.request_count : ℚ) - (m.error_count : ℚ)) /
        ((max m.request_count 1 : ℕ) : ℚ)) * 100)
    else .int 0
  { total_requests := m.request_count,
    total_errors := m.error_count,
    avg_latency_ms := pyRound2 avg_latency,
    success_rate := pyRound2Num success_rate }

/-- Decimal rendering of a float whose value has at most two decimal
places (every value the snapshot can hold), as Python string-formats it. -/
def pyFloatRepr (q : ℚ) : String :=
  let ip : ℤ := ⌊q⌋
  let hundredths : ℤ := ⌊q * 100⌋ - 100 * ip
  if hundredths = 0 then toString ip ++ ".0"
  else if hundredths % 10 = 0 then toString ip ++ "." ++ toString (hundredths / 10)
  else if hundredths < 10 then toString ip ++ ".0" ++ toString hundredths
  else toString ip ++ "." ++ toString hundredths

/-- How Python string-formats a number inside an f-string. -/
def PyNumber.render : PyNumber → String
  | .int n => toString n
  | .float q => pyFloatRepr q

/-- `MetricsCollector.get_prometheus_format`: four stanzas of HELP/TYPE
comment lines and a value line, joined with newlines. -/
def MetricsCollector.get_prometheus_format (m : MetricsCollector) : String :=
  let metrics := m.get_metrics
  String.intercalate "\n"
    [ "# HELP autoassist_requests_total Total number of requests"
    , "# TYPE autoassist_requests_total counter"
    , "autoassist_requests_total " ++ toString metrics.total_requests
    , "# HELP autoassist_errors_total Total number of errors"
    , "# TYPE autoassist_errors_total counter"
    , "autoassist_errors_total " ++ toString metrics.total_errors
    , "# HELP autoassist_request_latency_ms Average request latency in milliseconds"
    , "# TYPE autoassist_request_latency_ms gauge"
    , "autoassist_request_latency_ms " ++ pyFloatRepr metrics.avg_latency_ms
    , "# HELP autoassist_success_rate Success rate percentage"
    , "# TYPE autoassist_success_rate gauge"
    , "autoassist_success_rate " ++ metrics.success_rate.render ]

/-- A finite sequence of `record_request` calls applied to a collector. -/
def record_fold (ops : List (ℚ × Bool)) (c : MetricsCollector) :
    MetricsCollector :=
  ops.foldl (fun c p => c.record_request p.1 p.2) c

theorem record_fold_request_count (ops : List (ℚ × Bool))
    (c : MetricsCollector) :
    (record_fold ops c).request_count = c.request_count + ops.length := by
  induction ops generalizing c with
  | nil => rfl
  | cons p tl ih =>
    show (record_fold tl (c.record_request p.1 p.2)).request_count = _
    rw [ih]
    unfold MetricsCollector.record_request
    dsimp only
    rw [List.length_cons]
    omega

theorem record_fold_total_latency (ops : List (ℚ × Bool))
    (c : MetricsCollector) :
    (record_fold ops c).total_latency =
      c.total_latency + (ops.map Prod.fst).sum := by
  induction ops generalizing c with
  | nil => simp [record_fold]
  | cons p tl ih =>
    show (record_fold tl (c.record_request p.1 p.2)).total_latency = _
    rw [ih]
    unfold MetricsCollector.record_request
    dsimp only
    rw [List.map_cons, List.sum_cons, add_assoc]

theorem record_fold_errors_le (ops : List (ℚ × Bool)) (c : MetricsCollector)
    (h : c.error_count ≤ c.request_count) :
    (record_fold ops c).error_count ≤ (record_fold ops c).request_count := by
  induction ops generalizing c with
  | nil => exact h
  | cons p tl ih =>
    show (record_fold tl (c.record_request p.1 p.2)).error_count ≤ _
    refine ih (c.record_request p.1 p.2) ?_
    unfold MetricsCollector.record_request
    dsimp only
    split <;> omega

/-- C6 counterexample: the claimed exact equality
`avg_latency_ms = cumulative latency / max(total_requests, 1)` fails after
a single `record_request` with latency `0.001` ms, because `get_metrics`
rounds the average to two decimal places (yielding `0.0`, not `0.001`). -/
theorem metrics_avg_exact_equality_counterexample :
    ((MetricsCollector.init.record_request (1/1000) false).get_metrics).avg_latency_ms ≠
      (MetricsCollector.init.record_request (1/1000) false).total_latency /
        ((max (MetricsCollector.init.record_request (1/1000) false).request_count 1 : ℕ) : ℚ) := by
  unfold MetricsCollector.init MetricsCollector.record_request
    MetricsCollector.get_metrics pyRound2 roundHalfEven
  norm_num

/-- C6 amended: after every finite sequence of `record_request` calls on a
fresh collector, `total_errors ≤ total_requests` holds both in the state
and in the `get_metrics` snapshot, and the snapshot reports
`avg_latency_ms` equal to the cumulative latency divided by
`max(total_requests, 1)` rounded to two decimal places. -/
theorem metrics_invariant_after_fold (ops : List (ℚ × Bool)) :
    (record_fold ops MetricsCollector.init).error_count ≤
      (record_fold ops MetricsCollector.init).request_count ∧
    ((record_fold ops MetricsCollector.init).get_metrics).total_errors ≤
      ((record_fold ops MetricsCollector.init).get_metrics).total_requests ∧
    ((record_fold ops MetricsCollector.init).get_metrics).avg_latency_ms =
      pyRound2 ((ops.map Prod.fst).sum / ((max ops.length 1 : ℕ) : ℚ)) := by
  have hle : (record_fold ops MetricsCollector.init).error_count ≤
      (record_fold ops MetricsCollector.init).request_count :=
    record_fold_errors_le ops MetricsCollector.init (Nat.le_refl 0)
  have hcount := record_fold_request_count ops MetricsCollector.init
  have hlat := record_fold_total_latency ops MetricsCollector.init
  refine ⟨hle, hle, ?_⟩
  unfold MetricsCollector.get_metrics
  dsimp only
  rw [hcount, hlat]
  unfold MetricsCollector.init
  dsimp only
  rw [Nat.zero_add, zero_add]

/-! ## main.py -/

/-- Outcome of the `/chat` route as seen by the HTTP client: a 200
response with the result dict, or an `HTTPException` with a status code
and a detail string. -/
inductive ChatOutcome where
  | ok (resp : QueryResult)
  | httpError (status_code : Nat) (detail : String)
deriving DecidableEq, Repr

/-- Embedding of the `/chat` handler `chat` in `app/main.py`: strip the
query, process it through the agent, record metrics (with the measured
latency passed in as a parameter), and on an error-status result raise
`HTTPException(500)` with a fixed generic detail; the full error detail is
only logged server-side, never returned. -/
def chat (model_name : String) (adapter : String → AdapterOutcome)
    (m : MetricsCollector) (latency_ms : ℚ) (query : String) :
    ChatOutcome × MetricsCollector :=
  let sanitized_query := strip query
  let result := process_query model_name adapter sanitized_query
  let m2 := m.record_request latency_ms (result.status == "error")
  if result.status = "error" then
    (.httpError 500 "Failed to process query. Please try again.", m2)
  else
    (.ok result, m2)

/-- C8: for every query, every adapter behaviour (however the backend
fails, whatever its error bodies or the configured token contain), the
`/chat` response is either a success result or an HTTP 500 whose detail is
the fixed generic message `Failed to process query. Please try again.` —
the failure surfaced to the caller never carries the underlying error
text. -/
theorem chat_failure_detail_is_generic (model_name : String)
    (adapter : String → AdapterOutcome) (m : MetricsCollector)
    (latency_ms : ℚ) (query : String) :
    (∃ r, (chat model_name adapter m latency_ms query).1 = .ok r ∧
      r.status = "success") ∨
    (chat model_name adapter m latency_ms query).1 =
      .httpError 500 "Failed to process query. Please try again." := by
  by_cases he : (process_query model_name adapter (strip query)).status = "error"
  · right
    unfold chat
    dsimp only
    rw [if_pos he]
  · left
    refine ⟨process_query model_name adapter (strip query), ?_, ?_⟩
    · unfold chat
      dsimp only
      rw [if_neg he]
    · rcases process_query_instr_cases model_name adapter (strip query) with h | h
      · exact h.1
      · exact absurd h.1 he

set_option maxRecDepth 4000 in
/-- C10: a fresh collector reports all-zero metrics — in particular a
success rate of 0, not 100 — and the Prometheus export renders these same
zero values. -/
theorem fresh_collector_reports_zero :
    MetricsCollector.init.get_metrics =
      { total_requests := 0, total_errors := 0, avg_latency_ms := 0,
        success_rate := .int 0 } ∧
    MetricsCollector.init.get_metrics.avg_latency_ms = 0 ∧
    MetricsCollector.init.get_metrics.success_rate.val = 0 ∧
    MetricsCollector.init.get_prometheus_format =
      "# HELP autoassist_requests_total Total number of requests\n" ++
      "# TYPE autoassist_requests_total counter\n" ++
      "autoassist_requests_total 0\n" ++
      "# HELP autoassist_errors_total Total number of errors\n" ++
      "# TYPE autoassist_errors_total counter\n" ++
      "autoassist_errors_total 0\n" ++
      "# HELP autoassist_request_latency_ms Average request latency in milliseconds\n" ++
      "# TYPE autoassist_request_latency_ms gauge\n" ++
      "autoassist_request_latency_ms 0.0\n" ++
      "# HELP autoassist_success_rate Success rate percentage\n" ++
      "# TYPE autoassist_success_rate gauge\n" ++
      "autoassist_success_rate 0" := by
  have hsnap : MetricsCollector.init.get_metrics =
      { total_requests := 0, total_errors := 0, avg_latency_ms := 0,
        success_rate := .int 0 } := by
    unfold MetricsCollector.init MetricsCollector.get_metrics pyRound2
      roundHalfEven pyRound2Num
    norm_num
  have hrepr : pyFloatRepr 0 = "0.0" := by
    unfold pyFloatRepr
    norm_num
    rfl
  refine ⟨hsnap, ?_, ?_, ?_⟩
  · rw [hsnap]
  · rw [hsnap]
    rfl
  · unfold MetricsCollector.get_prometheus_format
    rw [hsnap]
    dsimp only
    rw [hrepr]
    decide

end AutoAssist
